import Mathlib

/-!
Verification development for the Brain Wave Analyzer backend
(`src/backend.py`).

The numeric core works on `ℚ`: the Python floats that matter to the
verified properties (band bounds `0.5, 4.0, 8.0, 13.0, 30.0, 40.0`,
window arithmetic `start_time + 60`, and the relative-power quotients)
are exact in the source, so rational arithmetic is a faithful model.

The EDF-decoding / filtering / PSD-estimation library (`mne`) and the
plotting library (`matplotlib`) are external dependencies of the
repository.  They appear here as an explicit boundary parameter
`MNELib`: every theorem quantifies over the library's behaviour, and
plotting calls (`ax.plot`, `plt.savefig`, ...) are modelled as pure
no-ops on the analysis results, since the source only passes data into
them and never reads anything back.
-/

/-- An in-memory EDF recording (`mne.io.edf.edf.RawEDF`): sample times and a
channels × samples data matrix.  The recording's duration is `times[-1]`. -/
structure RawEDF where
  times : List ℚ
  data : List (List ℚ)

/-- `raw.times[-1]`: the recording duration used by `preprocess_mne_file`.
The Python negative index requires a nonempty `times`; theorems about the
duration carry that hypothesis. -/
def RawEDF.duration (r : RawEDF) : ℚ :=
  r.times.getLastD 0

/-- The external biosignal-processing boundary: band-pass filtering
(`raw.copy().filter(l_freq, h_freq)`), cropping (`crop(tmin, tmax)`) and PSD
estimation (`data.compute_psd(fmin, fmax)` returning `(psds, freqs)` via
`spectrum.get_data(return_freqs=True)`).  The repository configures these
operations but does not implement them, so the model quantifies over them. -/
structure MNELib where
  filter : RawEDF → ℚ → ℚ → RawEDF
  crop : RawEDF → ℚ → ℚ → RawEDF
  compute_psd : RawEDF → Option ℚ → Option ℚ → List ℚ × List (List ℚ)

/-- Errors raised by the backend code: `invalidInput` is a Python
`ValueError` raised by the backend's own validation; `plotting` is an
exception escaping a matplotlib interaction inside `collect_and_plot_psds`
(the `plt.subplots(0, 2)` failure for zero ranges, and the `AttributeError`
from calling `ax.plot` on the wrapped axes ndarray in the single-range
case); `external` stands for a failure inside an external library call
(e.g. EDF decoding). -/
inductive AppError where
  | invalidInput (msg : String)
  | plotting (msg : String)
  | external (msg : String)
deriving DecidableEq

/-- The human-readable text of an error, as interpolated into HTTP 500
details by the request handler. -/
def AppError.message : AppError → String
  | .invalidInput m => m
  | .plotting m => m
  | .external m => m

/-- `preprocess_mne_file` (backend.py lines 55-73), with the recording
already loaded: `read_mne_file` is the external EDF decode at the
`MNELib` boundary, so the model receives the decoded `RawEDF` directly.
Validates the 60-second analysis window, then filters and crops. -/
def preprocess_mne_file (lib : MNELib) (raw : RawEDF)
    (low_freq high_freq start_time : ℚ) : Except AppError RawEDF :=
  if start_time < 0 ∨ start_time + 60 > raw.duration then
    .error (.invalidInput
      "start_time must be non-negative and within the recording duration.")
  else
    .ok (lib.crop (lib.filter raw low_freq high_freq) start_time (start_time + 60))

/-- The loop-body validation of `collect_and_plot_psds` (line 98):
`fmin is not None and fmax is not None and fmin >= fmax`. -/
def badRange : Option ℚ × Option ℚ → Bool
  | (some fmin, some fmax) => fmin ≥ fmax
  | _ => false

/-- The four-way `compute_psd` dispatch of `collect_and_plot_psds`
(lines 102-112), branching on which bounds are present. -/
def psdForRange (lib : MNELib) (data : RawEDF) :
    Option ℚ × Option ℚ → List ℚ × List (List ℚ)
  | (some fmin, none) => lib.compute_psd data (some fmin) none
  | (none, some fmax) => lib.compute_psd data none (some fmax)
  | (none, none) => lib.compute_psd data none none
  | (some fmin, some fmax) => lib.compute_psd data (some fmin) (some fmax)

/-- The `for ax, (fmin, fmax), title in zip(axes, ranges, titles, strict=False)`
loop of `collect_and_plot_psds` (lines 97-124), one range/title pair per
iteration: validate the range, compute its PSD, and accumulate the frequency
axis and power matrix in input order.  The per-iteration plotting calls write
to matplotlib axes and are dropped. -/
def collect_psds (lib : MNELib) (data : RawEDF) :
    List ((Option ℚ × Option ℚ) × String) →
      Except AppError (List (List ℚ) × List (List (List ℚ)))
  | [] => .ok ([], [])
  | (r, _title) :: rest =>
    if badRange r then
      .error (.invalidInput "fmin must be less than fmax.")
    else
      match collect_psds lib data rest with
      | .error e => .error e
      | .ok (freqs_list, psd_list) =>
        .ok ((psdForRange lib data r).1 :: freqs_list,
             (psdForRange lib data r).2 :: psd_list)

/-- `collect_and_plot_psds` (lines 76-130), plotting paths included.
With zero ranges, `plt.subplots(0, 2)` (line 84) fails before the loop.
With exactly one range, `plt.subplots(1, 2)` returns a 2-element axes
ndarray and the `n_ranges == 1` special case (lines 91-92) wraps that
ndarray in a one-element list, so if a title is paired with the range the
single iteration first runs the line-98 validation, then computes the PSD,
and then fails at `ax.plot` (line 119) because `ax` is the ndarray; with no
paired title the loop body never runs and the call returns empty lists.
For two or more ranges `flatten` gives `2 * (n/2 + n%2) ≥ n` genuine axes,
and the truncating `zip(axes, ranges, titles, strict=False)` iterates over
exactly `ranges.zip titles`.  The `plot` flag only gates `plt.show()`. -/
def collect_and_plot_psds (lib : MNELib) (data : RawEDF)
    (ranges : List (Option ℚ × Option ℚ)) (titles : List String) :
    Except AppError (List (List ℚ) × List (List (List ℚ))) :=
  match ranges, titles with
  | [], _ =>
    .error (.plotting "Number of rows must be a positive integer")
  | [r], _ :: _ =>
    if badRange r then
      .error (.invalidInput "fmin must be less than fmax.")
    else
      .error (.plotting "numpy.ndarray object has no attribute plot")
  | _, _ => collect_psds lib data (ranges.zip titles)

/-- Sum of all entries of a channels × frequencies power matrix
(numpy `psd.sum()`). -/
def matSum (m : List (List ℚ)) : ℚ :=
  (m.map List.sum).sum

/-- Number of entries of a power matrix (numpy `psd.size`). -/
def matCount (m : List (List ℚ)) : ℕ :=
  (m.map List.length).sum

/-- Mean of all entries of a power matrix (numpy `psd.mean()`). -/
def matMean (m : List (List ℚ)) : ℚ :=
  matSum m / matCount m

/-- The `freq_ranges` list built by `process_edf_data` (lines 164-171). -/
def freq_ranges (low_freq high_freq : ℚ) : List (Option ℚ × Option ℚ) :=
  [(some 0.5, some 4.0),
   (some 4.0, some 8.0),
   (some 8.0, some 13.0),
   (some 13.0, some 30.0),
   (some 30.0, some high_freq),
   (some low_freq, some high_freq)]

/-- The `titles` list built by `process_edf_data` (lines 172-179). -/
def bandTitles : List String :=
  ["Delta (0.5-4 Hz)",
   "Theta (4-8 Hz)",
   "Alpha (8-13 Hz)",
   "Beta (13-30 Hz)",
   "Gamma (30+ Hz)",
   "Full Spectrum (0.5+ Hz)"]

/-- The `results` dictionary returned by `process_edf_data` (lines 189-193). -/
structure Results where
  freq_bands : List String
  average_power : List ℚ
  relative_power : List ℚ
deriving DecidableEq

/-- `process_edf_data` (lines 158-195): preprocess, compute the six band
PSDs, then derive per-band average power and relative power. -/
def process_edf_data (lib : MNELib) (raw : RawEDF)
    (low_freq high_freq start_time : ℚ) :
    Except AppError (Results × List (List ℚ) × List (List (List ℚ)) × List String) :=
  match preprocess_mne_file lib raw low_freq high_freq start_time with
  | .error e => .error e
  | .ok preproc_data =>
    match collect_and_plot_psds lib preproc_data
        (freq_ranges low_freq high_freq) bandTitles with
    | .error e => .error e
    | .ok (freqs_list, psd_list) =>
      let avg_psd := psd_list.map matMean
      let total_power := (psd_list.map matSum).sum
      let rel_psd := psd_list.map (fun psd => matSum psd / total_power)
      .ok ({ freq_bands := bandTitles,
             average_power := avg_psd,
             relative_power := rel_psd },
           freqs_list, psd_list, bandTitles)

/-- A multipart upload as seen by the handler.  In starlette the `filename`
attribute is `str | None`. -/
structure UploadFile where
  filename : Option String
deriving DecidableEq

/-- The `plot_urls` object of a success response (lines 321-325). -/
structure PlotUrls where
  frequency_bands_plot : String
  average_power_plot : String
  relative_power_plot : String
deriving DecidableEq

/-- The JSON body of a successful `POST /analyze-edf/` response
(lines 316-327). -/
structure SuccessBody where
  analysis_id : String
  message : String
  results : Results
  plot_urls : PlotUrls
deriving DecidableEq

/-- An HTTP response: either the success body or an `HTTPException`
with a status code and a `detail` string. -/
inductive Response where
  | ok (body : SuccessBody)
  | httpError (status : ℕ) (detail : String)
deriving DecidableEq

/-- The ambient state and environment of one `POST /analyze-edf/` request:
the server filesystem (a list of existing paths), the fresh name
`tempfile.NamedTemporaryFile` will allocate, the `uuid.uuid4()` value the
handler will generate, whether `shutil.copyfileobj` succeeds, whether the
`plt.savefig` calls succeed, the result of `read_mne_file` on the uploaded
bytes (`none` models a decode failure), and the external library. -/
structure World where
  fs : List String
  tempName : String
  uuid : String
  writeOk : Bool
  saveOk : Bool
  readResult : Option RawEDF
  lib : MNELib

/-- `if temp_path.exists(): temp_path.unlink()` (lines 330-332). -/
def unlinkIfExists (fs : List String) (p : String) : List String :=
  fs.filter (fun q => q ≠ p)

/-- Modelled from the spec: a plain `UploadFile` object defines neither
`__bool__` nor `__len__`, so Python evaluates `not file` to `False` for
every upload object the framework hands to the handler; the framework
itself never passes a null `file` (a missing field is rejected with 422
before the handler body runs, see `route`). -/
def uploadFileTruthy (_f : UploadFile) : Bool :=
  true

/-- Python's `str.endswith(suffix)`: a plain suffix test on the characters. -/
def strEndsWith (s suffix : String) : Bool :=
  List.isSuffixOf suffix.data s.data

/-- The extension check `not file.filename or not file.filename.endswith(".edf")`
(line 243): true exactly when the filename is absent, empty, or does not
end in `.edf`. -/
def badFilename : Option String → Bool
  | none => true
  | some s => s == "" || !(strEndsWith s ".edf")

/-- The `POST /analyze-edf/` handler `analyze_edf_file` (lines 226-332) as a
state-passing function: given the request world, the upload and
`start_time`, it returns the response and the resulting filesystem.
Control flow mirrors the source:
the truthiness and extension checks return 400 before any file is created;
the temp file is created on disk (`delete=False`);
a failure while copying the upload raises HTTP 500 from inside the first
`with` block, before the `try`/`finally` that deletes the temp file is
entered, so that path does not delete it;
analysis uses fixed `low_freq=0.1`, `high_freq=40.0`;
analysis or figure-saving failures, and success, pass through the
`finally` block, which unlinks the temp file if it exists. -/
def analyze_edf_file (w : World) (file : UploadFile) (start_time : ℚ) :
    Response × List String :=
  if !uploadFileTruthy file then
    (.httpError 400 "No file uploaded", w.fs)
  else if badFilename file.filename then
    (.httpError 400 "Only .edf files are supported", w.fs)
  else
    let fs1 := w.tempName :: w.fs
    if !w.writeOk then
      (.httpError 500 "Error saving uploaded file", fs1)
    else
      match (match w.readResult with
             | none => Except.error (AppError.external "could not read the EDF file")
             | some raw => process_edf_data w.lib raw 0.1 40.0 start_time) with
      | .error e =>
        (.httpError 500 ("Error processing file: " ++ e.message),
         unlinkIfExists fs1 w.tempName)
      | .ok (results, _freqs_list, _psd_list, _titles) =>
        if !w.saveOk then
          (.httpError 500 "Error processing file: could not save the figure",
           unlinkIfExists fs1 w.tempName)
        else
          let psd_filename := w.uuid ++ "_frequency_bands.png"
          let power_filename := w.uuid ++ "_avg_power.png"
          let rel_power_filename := w.uuid ++ "_rel_power.png"
          let fs2 := ("static/figures/" ++ rel_power_filename) ::
                     ("static/figures/" ++ power_filename) ::
                     ("static/figures/" ++ psd_filename) :: fs1
          (.ok { analysis_id := w.uuid,
                 message := "File processed successfully",
                 results := results,
                 plot_urls :=
                   { frequency_bands_plot := "/static/figures/" ++ psd_filename,
                     average_power_plot := "/static/figures/" ++ power_filename,
                     relative_power_plot := "/static/figures/" ++ rel_power_filename } },
           unlinkIfExists fs2 w.tempName)

/-- Modelled from the spec: FastAPI's request-validation layer rejects a
request whose required multipart `file` field is missing with HTTP 422
before any application code runs; otherwise it invokes the handler with
the parsed upload. -/
def route (w : World) (file : Option UploadFile) (start_time : ℚ) :
    Response × List String :=
  match file with
  | none => (.httpError 422 "Field required", w.fs)
  | some f => analyze_edf_file w f start_time

/-- A concrete external library for witnesses: identity filter and crop, and
a constant one-channel, one-frequency PSD. -/
def wLib : MNELib where
  filter := fun r _ _ => r
  crop := fun r _ _ => r
  compute_psd := fun _ _ _ => ([5], [[1]])

/-- A concrete recording of duration 60 seconds for witnesses. -/
def wRaw : RawEDF where
  times := [0, 60]
  data := [[0]]

/-- A request world in which everything succeeds. -/
def wWorldOk : World where
  fs := []
  tempName := "tmp_upload.edf"
  uuid := "id1"
  writeOk := true
  saveOk := true
  readResult := some wRaw
  lib := wLib

/-- A request world where copying the upload into the temp file fails. -/
def wWorldBadWrite : World where
  fs := []
  tempName := "tmp_upload.edf"
  uuid := "id0"
  writeOk := false
  saveOk := true
  readResult := some wRaw
  lib := wLib

/-- The `results` value of a fully successful witness run: constant PSDs give
unit average power and relative power 1/6 per band. -/
def wResults : Results where
  freq_bands := bandTitles
  average_power := [1, 1, 1, 1, 1, 1]
  relative_power := [1/6, 1/6, 1/6, 1/6, 1/6, 1/6]

/-- Frequency axes of the witness run: one axis per band. -/
def wFreqs : List (List ℚ) :=
  [[5], [5], [5], [5], [5], [5]]

/-- Power matrices of the witness run: one 1×1 matrix per band. -/
def wPsds : List (List (List ℚ)) :=
  [[[1]], [[1]], [[1]], [[1]], [[1]], [[1]]]

/-- The full return value of `process_edf_data` in the witness run. -/
def wOut : Results × List (List ℚ) × List (List (List ℚ)) × List String :=
  (wResults, wFreqs, wPsds, bandTitles)

/-- The success body produced by `analyze_edf_file` on `wWorldOk` with the
upload `rec.edf` and `start_time = 0`. -/
def wBody : SuccessBody where
  analysis_id := "id1"
  message := "File processed successfully"
  results := wResults
  plot_urls :=
    { frequency_bands_plot := "/static/figures/" ++ ("id1" ++ "_frequency_bands.png"),
      average_power_plot := "/static/figures/" ++ ("id1" ++ "_avg_power.png"),
      relative_power_plot := "/static/figures/" ++ ("id1" ++ "_rel_power.png") }

theorem collect_and_plot_psds_nil (lib : MNELib) (data : RawEDF)
    (titles : List String) :
    collect_and_plot_psds lib data [] titles =
      .error (.plotting "Number of rows must be a positive integer") :=
  rfl

theorem collect_and_plot_psds_single (lib : MNELib) (data : RawEDF)
    (r : Option ℚ × Option ℚ) (t : String) (ts : List String) :
    collect_and_plot_psds lib data [r] (t :: ts) =
      if badRange r then
        .error (.invalidInput "fmin must be less than fmax.")
      else
        .error (.plotting "numpy.ndarray object has no attribute plot") :=
  rfl

theorem collect_and_plot_psds_single_nil (lib : MNELib) (data : RawEDF)
    (r : Option ℚ × Option ℚ) :
    collect_and_plot_psds lib data [r] [] = .ok ([], []) :=
  rfl

theorem collect_and_plot_psds_two (lib : MNELib) (data : RawEDF)
    (a b : Option ℚ × Option ℚ) (rest : List (Option ℚ × Option ℚ))
    (titles : List String) :
    collect_and_plot_psds lib data (a :: b :: rest) titles =
      collect_psds lib data ((a :: b :: rest).zip titles) :=
  rfl

theorem collect_and_plot_psds_ok_inv (lib : MNELib) (data : RawEDF)
    (ranges : List (Option ℚ × Option ℚ)) (titles : List String)
    (fl : List (List ℚ)) (pl : List (List (List ℚ)))
    (h : collect_and_plot_psds lib data ranges titles = .ok (fl, pl)) :
    collect_psds lib data (ranges.zip titles) = .ok (fl, pl) := by
  rcases ranges with _ | ⟨r, _ | ⟨r2, rest⟩⟩
  · rw [collect_and_plot_psds_nil] at h
    simp at h
  · rcases titles with _ | ⟨t, ts⟩
    · exact h
    · rw [collect_and_plot_psds_single] at h
      split at h <;> simp at h
  · exact h

theorem sum_map_div (l : List ℚ) (t : ℚ) :
    (l.map (fun x => x / t)).sum = l.sum / t := by
  induction l with
  | nil => simp
  | cons x xs ih => simp [ih, add_div]

theorem collect_psds_length (lib : MNELib) (data : RawEDF)
    (l : List ((Option ℚ × Option ℚ) × String))
    (fl : List (List ℚ)) (pl : List (List (List ℚ)))
    (h : collect_psds lib data l = .ok (fl, pl)) :
    fl.length = l.length ∧ pl.length = l.length := by
  induction l generalizing fl pl with
  | nil =>
    simp only [collect_psds, Except.ok.injEq, Prod.mk.injEq] at h
    obtain ⟨h1, h2⟩ := h
    simp [← h1, ← h2]
  | cons p rest ih =>
    obtain ⟨r, t⟩ := p
    simp only [collect_psds] at h
    split at h
    · simp at h
    · split at h
      · simp at h
      · rename_i freqs_list psd_list heq
        simp only [Except.ok.injEq, Prod.mk.injEq] at h
        obtain ⟨h1, h2⟩ := h
        obtain ⟨ih1, ih2⟩ := ih _ _ heq
        simp [← h1, ← h2, ih1, ih2]

theorem collect_psds_getElem (lib : MNELib) (data : RawEDF)
    (l : List ((Option ℚ × Option ℚ) × String))
    (fl : List (List ℚ)) (pl : List (List (List ℚ)))
    (h : collect_psds lib data l = .ok (fl, pl)) (i : ℕ) :
    fl[i]? = (l[i]?).map (fun p => (psdForRange lib data p.1).1) ∧
    pl[i]? = (l[i]?).map (fun p => (psdForRange lib data p.1).2) := by
  induction l generalizing fl pl i with
  | nil =>
    simp only [collect_psds, Except.ok.injEq, Prod.mk.injEq] at h
    obtain ⟨h1, h2⟩ := h
    simp [← h1, ← h2]
  | cons p rest ih =>
    obtain ⟨r, t⟩ := p
    simp only [collect_psds] at h
    split at h
    · simp at h
    · split at h
      · simp at h
      · rename_i freqs_list psd_list heq
        simp only [Except.ok.injEq, Prod.mk.injEq] at h
        obtain ⟨h1, h2⟩ := h
        cases i with
        | zero => simp [← h1, ← h2]
        | succ j => simp [← h1, ← h2, ih _ _ heq j]

theorem collect_psds_error_of_mem_bad (lib : MNELib) (data : RawEDF)
    (l : List ((Option ℚ × Option ℚ) × String))
    (h : ∃ p ∈ l, badRange p.1 = true) :
    collect_psds lib data l = .error (.invalidInput "fmin must be less than fmax.") := by
  induction l with
  | nil => simp at h
  | cons q rest ih =>
    obtain ⟨p, hp, hbad⟩ := h
    obtain ⟨r, t⟩ := q
    by_cases hr : badRange r = true
    · simp [collect_psds, hr]
    · rcases List.mem_cons.mp hp with hhd | htl
      · rw [hhd] at hbad
        exact absurd hbad hr
      · simp [collect_psds, hr, ih ⟨p, htl, hbad⟩]

theorem collect_psds_ok_of_all_good (lib : MNELib) (data : RawEDF)
    (l : List ((Option ℚ × Option ℚ) × String))
    (h : ∀ p ∈ l, badRange p.1 = false) :
    ∃ out, collect_psds lib data l = .ok out := by
  induction l with
  | nil => exact ⟨([], []), rfl⟩
  | cons q rest ih =>
    obtain ⟨r, t⟩ := q
    obtain ⟨⟨fl, pl⟩, hout⟩ := ih (fun p hp => h p (List.mem_cons_of_mem _ hp))
    refine ⟨((psdForRange lib data r).1 :: fl, (psdForRange lib data r).2 :: pl), ?_⟩
    have hr : badRange r = false := h (r, t) (List.mem_cons_self _ _)
    simp [collect_psds, hr, hout]

theorem process_edf_data_ok_inv (lib : MNELib) (raw : RawEDF)
    (low_freq high_freq start_time : ℚ)
    (out : Results × List (List ℚ) × List (List (List ℚ)) × List String)
    (h : process_edf_data lib raw low_freq high_freq start_time = .ok out) :
    ∃ pre fl pl,
      preprocess_mne_file lib raw low_freq high_freq start_time = .ok pre ∧
      collect_and_plot_psds lib pre (freq_ranges low_freq high_freq) bandTitles =
        .ok (fl, pl) ∧
      out = ({ freq_bands := bandTitles,
               average_power := pl.map matMean,
               relative_power :=
                 pl.map (fun psd => matSum psd / (pl.map matSum).sum) },
             fl, pl, bandTitles) := by
  unfold process_edf_data at h
  split at h
  · simp at h
  · rename_i pre hpre
    split at h
    · simp at h
    · rename_i fl pl hcol
      simp only [Except.ok.injEq] at h
      exact ⟨pre, fl, pl, hpre, hcol, h.symm⟩

theorem process_edf_data_error_of_preprocess (lib : MNELib) (raw : RawEDF)
    (low_freq high_freq start_time : ℚ) (e : AppError)
    (hpre : preprocess_mne_file lib raw low_freq high_freq start_time = .error e) :
    process_edf_data lib raw low_freq high_freq start_time = .error e := by
  simp only [process_edf_data, hpre]

theorem process_edf_data_error_of_collect (lib : MNELib) (raw : RawEDF)
    (low_freq high_freq start_time : ℚ) (pre : RawEDF) (e : AppError)
    (hpre : preprocess_mne_file lib raw low_freq high_freq start_time = .ok pre)
    (hcol : collect_and_plot_psds lib pre (freq_ranges low_freq high_freq) bandTitles =
      .error e) :
    process_edf_data lib raw low_freq high_freq start_time = .error e := by
  simp only [process_edf_data, hpre, hcol]

theorem processEval : process_edf_data wLib wRaw 0.1 40.0 0 = .ok wOut := by
  norm_num [process_edf_data, preprocess_mne_file, collect_and_plot_psds_two,
    collect_psds, List.zip_cons_cons, List.zip_nil_right,
    freq_ranges, bandTitles, badRange, psdForRange, wLib, wRaw, RawEDF.duration,
    matMean, matSum, matCount, wOut, wResults, wFreqs, wPsds]

/-- C1: for every input on which it succeeds, `process_edf_data` returns
exactly 6 bands in the fixed order Delta, Theta, Alpha, Beta, Gamma,
Full Spectrum, with `freq_bands`, `average_power` and `relative_power` all of
length 6, and the band ranges are (0.5, 4.0), (4.0, 8.0), (8.0, 13.0),
(13.0, 30.0), (30.0, high_freq), (low_freq, high_freq). -/
theorem process_edf_data_six_fixed_bands (lib : MNELib) (raw : RawEDF)
    (low_freq high_freq start_time : ℚ)
    (out : Results × List (List ℚ) × List (List (List ℚ)) × List String)
    (h : process_edf_data lib raw low_freq high_freq start_time = .ok out) :
    out.1.freq_bands =
      ["Delta (0.5-4 Hz)", "Theta (4-8 Hz)", "Alpha (8-13 Hz)",
       "Beta (13-30 Hz)", "Gamma (30+ Hz)", "Full Spectrum (0.5+ Hz)"] ∧
    out.1.freq_bands.length = 6 ∧
    out.1.average_power.length = 6 ∧
    out.1.relative_power.length = 6 ∧
    freq_ranges low_freq high_freq =
      [(some 0.5, some 4.0), (some 4.0, some 8.0), (some 8.0, some 13.0),
       (some 13.0, some 30.0), (some 30.0, some high_freq),
       (some low_freq, some high_freq)] := by
  obtain ⟨pre, fl, pl, hpre, hcol, hout⟩ :=
    process_edf_data_ok_inv lib raw low_freq high_freq start_time out h
  have hlen := collect_psds_length lib pre _ fl pl
    (collect_and_plot_psds_ok_inv lib pre (freq_ranges low_freq high_freq)
      bandTitles fl pl hcol)
  have h6 : pl.length = 6 := by
    rw [hlen.2]
    simp [freq_ranges, bandTitles]
  subst hout
  exact ⟨rfl, rfl, by simp [h6], by simp [h6], rfl⟩

/-- Witness for C1: the theorem applied to the concrete successful run. -/
theorem process_edf_data_six_fixed_bands_witness :
    wOut.1.freq_bands =
      ["Delta (0.5-4 Hz)", "Theta (4-8 Hz)", "Alpha (8-13 Hz)",
       "Beta (13-30 Hz)", "Gamma (30+ Hz)", "Full Spectrum (0.5+ Hz)"] ∧
    wOut.1.freq_bands.length = 6 ∧
    wOut.1.average_power.length = 6 ∧
    wOut.1.relative_power.length = 6 ∧
    freq_ranges 0.1 40.0 =
      [(some 0.5, some 4.0), (some 4.0, some 8.0), (some 8.0, some 13.0),
       (some 13.0, some 30.0), (some 30.0, some 40.0),
       (some 0.1, some 40.0)] :=
  process_edf_data_six_fixed_bands wLib wRaw 0.1 40.0 0 wOut processEval

/-- C2: whenever `process_edf_data` succeeds and the per-band power matrices
have a nonzero grand total, the six relative power values sum to exactly 1. -/
theorem process_edf_data_relative_power_sum_one (lib : MNELib) (raw : RawEDF)
    (low_freq high_freq start_time : ℚ)
    (out : Results × List (List ℚ) × List (List (List ℚ)) × List String)
    (h : process_edf_data lib raw low_freq high_freq start_time = .ok out)
    (htot : ((out.2.2.1).map matSum).sum ≠ 0) :
    out.1.relative_power.sum = 1 := by
  obtain ⟨pre, fl, pl, hpre, hcol, hout⟩ :=
    process_edf_data_ok_inv lib raw low_freq high_freq start_time out h
  subst hout
  show (pl.map fun psd => matSum psd / (pl.map matSum).sum).sum = 1
  have hmap : (pl.map fun psd => matSum psd / (pl.map matSum).sum)
      = (pl.map matSum).map (fun x => x / (pl.map matSum).sum) := by
    rw [List.map_map]
    rfl
  rw [hmap, sum_map_div, div_self]
  exact htot

theorem wOutTotalNe : ((wOut.2.2.1).map matSum).sum ≠ 0 := by
  norm_num [wOut, wPsds, matSum]

/-- Witness for C2: in the concrete successful run the six relative powers
(each 1/6) sum to 1. -/
theorem process_edf_data_relative_power_sum_one_witness :
    wOut.1.relative_power.sum = 1 :=
  process_edf_data_relative_power_sum_one wLib wRaw 0.1 40.0 0 wOut
    processEval wOutTotalNe

theorem zip_getElem? {α β : Type} (l1 : List α) (l2 : List β) (i : ℕ) :
    (l1.zip l2)[i]? = (l1[i]?).bind (fun a => (l2[i]?).map (fun b => (a, b))) := by
  induction l1 generalizing l2 i with
  | nil => simp
  | cons a t1 ih =>
    cases l2 with
    | nil => simp
    | cons b t2 =>
      cases i with
      | zero => simp
      | succ j => simp [ih]

/-- C9: whenever `high_freq ≤ 30`, `process_edf_data` fails with a
`ValueError` for every recording, `low_freq` and `start_time`: either the
window validation rejects the input, or the Gamma band (30.0, high_freq)
fails the `fmin < fmax` validation; so `process_edf_data` can succeed only
when `high_freq > 30`. -/
theorem process_edf_data_requires_high_freq_above_30 (lib : MNELib) (raw : RawEDF)
    (low_freq start_time high_freq : ℚ) (hh : high_freq ≤ 30) :
    ∃ msg, process_edf_data lib raw low_freq high_freq start_time =
      .error (.invalidInput msg) := by
  by_cases hc : start_time < 0 ∨ start_time + 60 > raw.duration
  · refine ⟨"start_time must be non-negative and within the recording duration.", ?_⟩
    apply process_edf_data_error_of_preprocess
    unfold preprocess_mne_file
    rw [if_pos hc]
  · refine ⟨"fmin must be less than fmax.", ?_⟩
    refine process_edf_data_error_of_collect lib raw low_freq high_freq start_time
      (lib.crop (lib.filter raw low_freq high_freq) start_time (start_time + 60)) _
      ?_ ?_
    · unfold preprocess_mne_file
      rw [if_neg hc]
    · simp only [freq_ranges]
      rw [collect_and_plot_psds_two]
      apply collect_psds_error_of_mem_bad
      refine ⟨((some 30.0, some high_freq), "Gamma (30+ Hz)"), ?_, ?_⟩
      · simp [bandTitles, List.zip_cons_cons]
      · have h30 : (30.0 : ℚ) = 30 := by norm_num
        simp only [badRange, h30, ge_iff_le, decide_eq_true_eq]
        exact hh

theorem thirtyScientificLe : (30.0 : ℚ) ≤ 30 := by
  norm_num

/-- Witness for C9: with the preprocessing default `high_freq = 30.0` the
orchestrator fails on the concrete recording. -/
theorem process_edf_data_requires_high_freq_above_30_witness :
    ∃ msg, process_edf_data wLib wRaw 0.1 30.0 0 = .error (.invalidInput msg) :=
  process_edf_data_requires_high_freq_above_30 wLib wRaw 0.1 0 30.0 thirtyScientificLe

/-- C5: with the recording loaded, `preprocess_mne_file` fails with the
`ValueError` exactly when `start_time < 0` or `start_time + 60` exceeds the
recording duration `times[-1]`, and otherwise succeeds, returning the
filtered recording cropped to the fixed 60-second window
`[start_time, start_time + 60]`. -/
theorem preprocess_mne_file_window_validation (lib : MNELib) (raw : RawEDF)
    (low_freq high_freq start_time : ℚ) (ht : raw.times ≠ []) :
    (preprocess_mne_file lib raw low_freq high_freq start_time =
        .error (.invalidInput
          "start_time must be non-negative and within the recording duration.") ↔
      (start_time < 0 ∨ start_time + 60 > raw.duration)) ∧
    (preprocess_mne_file lib raw low_freq high_freq start_time =
        .ok (lib.crop (lib.filter raw low_freq high_freq) start_time
          (start_time + 60)) ↔
      ¬ (start_time < 0 ∨ start_time + 60 > raw.duration)) := by
  unfold preprocess_mne_file
  by_cases hc : start_time < 0 ∨ start_time + 60 > raw.duration
  · rw [if_pos hc]
    constructor <;> simp [hc]
  · rw [if_neg hc]
    constructor <;> simp [hc]

theorem wRawTimesNe : wRaw.times ≠ [] := by
  simp [wRaw]

theorem wRawWindowValid : ¬((0 : ℚ) < 0 ∨ (0 : ℚ) + 60 > wRaw.duration) := by
  norm_num [RawEDF.duration, wRaw]

/-- Witness for C5: `start_time = 0` is accepted on the 60-second recording
(duration exactly 60), with the window cropped to `[0, 60]`. -/
theorem preprocess_mne_file_window_validation_witness :
    preprocess_mne_file wLib wRaw 0.1 30.0 0 =
      .ok (wLib.crop (wLib.filter wRaw 0.1 30.0) 0 (0 + 60)) :=
  (preprocess_mne_file_window_validation wLib wRaw 0.1 30.0 0 wRawTimesNe).2.mpr
    wRawWindowValid

/-- C6: on success with `n` ranges and `n` titles, `collect_and_plot_psds`
returns two parallel lists of length exactly `n` whose `i`-th entries are the
frequency axis and power matrix computed from the `i`-th requested range, in
input order. -/
theorem collect_and_plot_psds_parallel_outputs (lib : MNELib) (data : RawEDF)
    (ranges : List (Option ℚ × Option ℚ)) (titles : List String) (n : ℕ)
    (fl : List (List ℚ)) (pl : List (List (List ℚ)))
    (hr : ranges.length = n) (ht : titles.length = n)
    (h : collect_and_plot_psds lib data ranges titles = .ok (fl, pl)) :
    fl.length = n ∧ pl.length = n ∧
    ∀ i, i < n →
      fl[i]? = (ranges[i]?).map (fun r => (psdForRange lib data r).1) ∧
      pl[i]? = (ranges[i]?).map (fun r => (psdForRange lib data r).2) := by
  have hzip := collect_and_plot_psds_ok_inv lib data ranges titles fl pl h
  have hzl : (ranges.zip titles).length = n := by
    simp [List.length_zip, hr, ht]
  have hlen := collect_psds_length lib data _ fl pl hzip
  refine ⟨hlen.1.trans hzl, hlen.2.trans hzl, ?_⟩
  intro i hi
  have hg := collect_psds_getElem lib data _ fl pl hzip i
  have hri : ranges[i]? = some (ranges.get ⟨i, hr ▸ hi⟩) :=
    List.getElem?_eq_getElem (hr ▸ hi)
  have hti : titles[i]? = some (titles.get ⟨i, ht ▸ hi⟩) :=
    List.getElem?_eq_getElem (ht ▸ hi)
  rw [hg.1, hg.2, zip_getElem?, hri, hti]
  simp


theorem collectEval2 :
    collect_and_plot_psds wLib wRaw [(some 5, some 10), (some 1, some 2)]
      ["Band A", "Band B"] = .ok ([[5], [5]], [[[1]], [[1]]]) := by
  norm_num [collect_and_plot_psds_two, collect_psds, List.zip_cons_cons,
    badRange, psdForRange, wLib]

/-- Witness for C6: two ranges, two titles, outputs of length two computed
from the requested ranges in order. -/
theorem collect_and_plot_psds_parallel_outputs_witness :
    ([[(5 : ℚ)], [(5 : ℚ)]]).length = 2 ∧
    ([[[(1 : ℚ)]], [[(1 : ℚ)]]]).length = 2 ∧
    ∀ i, i < 2 →
      ([[(5 : ℚ)], [(5 : ℚ)]])[i]? =
        (([(some (5 : ℚ), some (10 : ℚ)), (some (1 : ℚ), some (2 : ℚ))])[i]?).map
          (fun r => (psdForRange wLib wRaw r).1) ∧
      ([[[(1 : ℚ)]], [[(1 : ℚ)]]])[i]? =
        (([(some (5 : ℚ), some (10 : ℚ)), (some (1 : ℚ), some (2 : ℚ))])[i]?).map
          (fun r => (psdForRange wLib wRaw r).2) :=
  collect_and_plot_psds_parallel_outputs wLib wRaw
    [(some 5, some 10), (some 1, some 2)] ["Band A", "Band B"] 2
    [[5], [5]] [[[1]], [[1]]] rfl rfl collectEval2

theorem ten_ge_five : (10 : ℚ) ≥ 5 := by
  norm_num

theorem five_lt_ten : (5 : ℚ) < 10 := by
  norm_num

/-- C4 counterexample: the claim "if some range in the input list has both
bounds with fmin ≥ fmax the call fails" is false when the range has no
paired title: the truncating zip skips it and the call succeeds. -/
theorem range_validation_skipped_without_title :
    (some (10 : ℚ), some (5 : ℚ)) ∈ [(some (10 : ℚ), some (5 : ℚ))] ∧
    (10 : ℚ) ≥ 5 ∧
    collect_and_plot_psds wLib wRaw [(some 10, some 5)] [] = .ok ([], []) :=
  ⟨by simp, ten_ge_five, rfl⟩

theorem collect_psds_error_of_zip_bad (lib : MNELib) (data : RawEDF)
    (ranges : List (Option ℚ × Option ℚ)) (titles : List String)
    (hlen : ranges.length ≤ titles.length)
    (a b : ℚ) (hmem : (some a, some b) ∈ ranges) (hge : a ≥ b) :
    collect_psds lib data (ranges.zip titles) =
      .error (.invalidInput "fmin must be less than fmax.") := by
  apply collect_psds_error_of_mem_bad
  obtain ⟨i, hibound, hra⟩ := List.getElem_of_mem hmem
  have hzi : (ranges.zip titles)[i]? =
      some ((some a, some b), titles.get ⟨i, lt_of_lt_of_le hibound hlen⟩) := by
    rw [zip_getElem?, List.getElem?_eq_getElem hibound,
      List.getElem?_eq_getElem (lt_of_lt_of_le hibound hlen)]
    simp [hra]
  refine ⟨((some a, some b), titles.get ⟨i, lt_of_lt_of_le hibound hlen⟩),
    List.getElem?_mem hzi, ?_⟩
  simp only [badRange, ge_iff_le, decide_eq_true_eq]
  exact hge

theorem badRange_eq_false_of_good (ranges : List (Option ℚ × Option ℚ))
    (hgood : ∀ fmin fmax, (some fmin, some fmax) ∈ ranges → fmin < fmax)
    (r : Option ℚ × Option ℚ) (hr : r ∈ ranges) : badRange r = false := by
  match r, hr with
  | (none, o2), _ => cases o2 <;> rfl
  | (some x, none), _ => rfl
  | (some x, some y), hr =>
    simp only [badRange, ge_iff_le, decide_eq_false_iff_not]
    exact not_le.mpr (hgood x y hr)

/-- C4 amended: provided `titles` is at least as long as `ranges` (as in
every parallel-list call), a range with both bounds and `fmin ≥ fmax` makes
`collect_and_plot_psds` fail with the `ValueError`; and when every range with
both bounds has `fmin < fmax` the validation never raises: the call never
fails with that `ValueError` (for a single range with a paired title it
still fails later, at `ax.plot` on the wrapped axes ndarray, and with zero
ranges `plt.subplots(0, 2)` fails — neither is the validation error). -/
theorem collect_and_plot_psds_range_validation (lib : MNELib) (data : RawEDF)
    (ranges : List (Option ℚ × Option ℚ)) (titles : List String) :
    (ranges.length ≤ titles.length →
      (∃ fmin fmax, (some fmin, some fmax) ∈ ranges ∧ fmin ≥ fmax) →
      collect_and_plot_psds lib data ranges titles =
        .error (.invalidInput "fmin must be less than fmax.")) ∧
    ((∀ fmin fmax, (some fmin, some fmax) ∈ ranges → fmin < fmax) →
      collect_and_plot_psds lib data ranges titles ≠
        .error (.invalidInput "fmin must be less than fmax.")) := by
  constructor
  · rintro hlen ⟨a, b, hmem, hge⟩
    rcases ranges with _ | ⟨r, _ | ⟨r2, rest⟩⟩
    · simp at hmem
    · rcases titles with _ | ⟨t, ts⟩
      · simp at hlen
      · have hra : (some a, some b) = r := by
          simpa using hmem
        have hbr : badRange r = true := by
          rw [← hra]
          simp only [badRange, ge_iff_le, decide_eq_true_eq]
          exact hge
        simp [collect_and_plot_psds_single, hbr]
    · rw [collect_and_plot_psds_two]
      exact collect_psds_error_of_zip_bad lib data (r :: r2 :: rest) titles
        hlen a b hmem hge
  · intro hgood hcontra
    rcases ranges with _ | ⟨r, _ | ⟨r2, rest⟩⟩
    · rw [collect_and_plot_psds_nil] at hcontra
      simp at hcontra
    · rcases titles with _ | ⟨t, ts⟩
      · rw [collect_and_plot_psds_single_nil] at hcontra
        simp at hcontra
      · have hbr : badRange r = false :=
          badRange_eq_false_of_good [r] hgood r (by simp)
        rw [collect_and_plot_psds_single] at hcontra
        rw [if_neg (by simp [hbr])] at hcontra
        simp at hcontra
    · rw [collect_and_plot_psds_two] at hcontra
      have hball : ∀ p ∈ (r :: r2 :: rest).zip titles, badRange p.1 = false := by
        intro p hp
        obtain ⟨rr, tt⟩ := p
        exact badRange_eq_false_of_good (r :: r2 :: rest) hgood rr
          (List.of_mem_zip hp).1
      obtain ⟨out, hout⟩ := collect_psds_ok_of_all_good lib data _ hball
      rw [hout] at hcontra
      simp at hcontra

/-- Witness for C4: with a paired title, (10.0, 5.0) raises the `ValueError`
and (5.0, 10.0) does not raise it. -/
theorem collect_and_plot_psds_range_validation_witness :
    collect_and_plot_psds wLib wRaw [(some 10, some 5)] ["Gamma"] =
      .error (.invalidInput "fmin must be less than fmax.") ∧
    collect_and_plot_psds wLib wRaw [(some 5, some 10)] ["Band"] ≠
      .error (.invalidInput "fmin must be less than fmax.") :=
  ⟨(collect_and_plot_psds_range_validation wLib wRaw [(some 10, some 5)] ["Gamma"]).1
      (by simp) ⟨10, 5, by simp, ten_ge_five⟩,
   (collect_and_plot_psds_range_validation wLib wRaw [(some 5, some 10)] ["Band"]).2
      (fun fmin fmax hmem => by
        simp only [List.mem_singleton, Prod.mk.injEq, Option.some.injEq] at hmem
        obtain ⟨h1, h2⟩ := hmem
        rw [h1, h2]
        exact five_lt_ten)⟩

theorem not_mem_unlinkIfExists (fs : List String) (p : String) :
    p ∉ unlinkIfExists fs p := by
  simp [unlinkIfExists]

theorem badFilenameRecEdf : badFilename (some "rec.edf") = false := by
  decide

/-- C3 counterexample: when copying the uploaded bytes fails, HTTP 500 is
raised from inside the first `with` block, before the `try`/`finally` that
deletes the temp file is entered, so the temporary uploaded-file copy still
exists on disk after the request completes. -/
theorem temp_file_remains_on_write_failure :
    (analyze_edf_file wWorldBadWrite { filename := some "rec.edf" } 0).1 =
      .httpError 500 "Error saving uploaded file" ∧
    wWorldBadWrite.tempName ∈
      (analyze_edf_file wWorldBadWrite { filename := some "rec.edf" } 0).2 := by
  constructor
  · simp [analyze_edf_file, wWorldBadWrite, uploadFileTruthy, badFilenameRecEdf]
  · simp [analyze_edf_file, wWorldBadWrite, uploadFileTruthy, badFilenameRecEdf]

/-- C3 amended: the temporary uploaded-file copy does not exist after the
request on the success, validation-failure and analysis/plot-saving-failure
paths; but on a failure while writing the uploaded bytes the handler raises
HTTP 500 without reaching the `finally` block, and the temp file remains. -/
theorem temp_file_cleanup_except_write_failure (w : World) (file : UploadFile)
    (s : ℚ) (hfresh : w.tempName ∉ w.fs) :
    (w.writeOk = true → w.tempName ∉ (analyze_edf_file w file s).2) ∧
    (w.writeOk = false → badFilename file.filename = false →
      w.tempName ∈ (analyze_edf_file w file s).2) := by
  constructor
  · intro hw
    simp only [analyze_edf_file]
    split
    · next hcond => simp [uploadFileTruthy] at hcond
    · split
      · exact hfresh
      · split
        · next hw2 =>
          rw [hw] at hw2
          simp at hw2
        · split
          · exact not_mem_unlinkIfExists _ _
          · split
            · exact not_mem_unlinkIfExists _ _
            · exact not_mem_unlinkIfExists _ _
  · intro hw hbf
    simp [analyze_edf_file, uploadFileTruthy, hbf, hw]

/-- Witness for the amended C3: in the all-success world the temp file is
gone afterwards, and in the failed-write world it remains. -/
theorem temp_file_cleanup_except_write_failure_witness :
    ("tmp_upload.edf" ∉
      (analyze_edf_file wWorldOk { filename := some "rec.edf" } 0).2) ∧
    ("tmp_upload.edf" ∈
      (analyze_edf_file wWorldBadWrite { filename := some "rec.edf" } 0).2) :=
  ⟨(temp_file_cleanup_except_write_failure wWorldOk { filename := some "rec.edf" } 0
      (by simp [wWorldOk])).1 rfl,
   (temp_file_cleanup_except_write_failure wWorldBadWrite { filename := some "rec.edf" } 0
      (by simp [wWorldBadWrite])).2 rfl badFilenameRecEdf⟩

/-- C7: an upload whose filename does not end in `.edf` is rejected with
HTTP 400 and detail "Only .edf files are supported", with the filesystem
untouched: no temporary file is created and no analysis is performed. -/
theorem analyze_edf_file_rejects_non_edf (w : World) (file : UploadFile) (s : ℚ)
    (name : String) (hn : file.filename = some name)
    (hext : strEndsWith name ".edf" = false) :
    analyze_edf_file w file s =
      (.httpError 400 "Only .edf files are supported", w.fs) := by
  have hbad : badFilename file.filename = true := by
    rw [hn]
    simp [badFilename, hext]
  simp [analyze_edf_file, uploadFileTruthy, hbad]

theorem txtNotEdf : strEndsWith "test.txt" ".edf" = false := by
  decide

/-- Witness for C7: the filename `test.txt` is rejected. -/
theorem analyze_edf_file_rejects_non_edf_witness :
    analyze_edf_file wWorldOk { filename := some "test.txt" } 0 =
      (.httpError 400 "Only .edf files are supported", wWorldOk.fs) :=
  analyze_edf_file_rejects_non_edf wWorldOk { filename := some "test.txt" } 0
    "test.txt" rfl txtNotEdf

/-- C8: every successful response of the handler carries exactly the three
plot URLs `/static/figures/{analysis_id}_frequency_bands.png`,
`/static/figures/{analysis_id}_avg_power.png` and
`/static/figures/{analysis_id}_rel_power.png` under the keys
`frequency_bands_plot`, `average_power_plot`, `relative_power_plot`, where
`analysis_id` is the generated session identifier of the response. -/
theorem analyze_edf_file_success_urls (w : World) (file : UploadFile) (s : ℚ)
    (body : SuccessBody)
    (h : (analyze_edf_file w file s).1 = .ok body) :
    body.analysis_id = w.uuid ∧
    body.message = "File processed successfully" ∧
    body.plot_urls.frequency_bands_plot =
      "/static/figures/" ++ (w.uuid ++ "_frequency_bands.png") ∧
    body.plot_urls.average_power_plot =
      "/static/figures/" ++ (w.uuid ++ "_avg_power.png") ∧
    body.plot_urls.relative_power_plot =
      "/static/figures/" ++ (w.uuid ++ "_rel_power.png") := by
  simp only [analyze_edf_file] at h
  split at h
  · simp at h
  · split at h
    · simp at h
    · split at h
      · simp at h
      · split at h
        · simp at h
        · split at h
          · simp at h
          · simp only [Response.ok.injEq] at h
            subst h
            exact ⟨rfl, rfl, rfl, rfl, rfl⟩

theorem analyzeEvalOk :
    (analyze_edf_file wWorldOk { filename := some "rec.edf" } 0).1 = .ok wBody := by
  simp only [analyze_edf_file, wWorldOk, uploadFileTruthy, badFilenameRecEdf,
    Bool.not_true, Bool.not_false, Bool.false_eq_true, if_false, if_true,
    ite_false, ite_true, processEval, wBody, wOut]

/-- Witness for C8: the concrete successful run carries the three URLs built
from its generated identifier. -/
theorem analyze_edf_file_success_urls_witness :
    wBody.analysis_id = wWorldOk.uuid ∧
    wBody.message = "File processed successfully" ∧
    wBody.plot_urls.frequency_bands_plot =
      "/static/figures/" ++ (wWorldOk.uuid ++ "_frequency_bands.png") ∧
    wBody.plot_urls.average_power_plot =
      "/static/figures/" ++ (wWorldOk.uuid ++ "_avg_power.png") ∧
    wBody.plot_urls.relative_power_plot =
      "/static/figures/" ++ (wWorldOk.uuid ++ "_rel_power.png") :=
  analyze_edf_file_success_urls wWorldOk { filename := some "rec.edf" } 0 wBody
    analyzeEvalOk

/-- C10: the "No file uploaded" HTTP 400 branch is unreachable.  A request
without the `file` field is rejected with 422 by the framework layer before
the handler body runs, and a present upload object is always truthy in
Python, so no request produces HTTP 400 with detail "No file uploaded". -/
theorem no_file_uploaded_branch_unreachable (w : World) (file : Option UploadFile)
    (s : ℚ) :
    (route w file s).1 ≠ .httpError 400 "No file uploaded" := by
  cases file with
  | none => simp [route]
  | some f =>
    simp only [route, analyze_edf_file]
    split
    · next hcond => simp [uploadFileTruthy] at hcond
    · split
      · intro hc
        simp only [Response.httpError.injEq] at hc
        exact absurd hc.2 (by decide)
      · split
        · simp
        · split
          · simp
          · split
            · simp
            · simp
